import Mathlib

/-!
Verification development for the ASKAPTrigger repository.

The definitions below are a shallow embedding of the Python sources
`src/ASKAPTrigger/ASKAPTriggerMWA.py` and `src/ASKAPTrigger/askaptrigger.py`:

* Python dictionaries used as keyword-argument parameter sets are embedded as
  association lists where a later binding shadows an earlier one (`PyDict`,
  `dget`, `dictUpdate`); this matches the observable lookup semantics of
  `dict.update` followed by `dict[key]`.
* The SQLite tables `mwatrigger` and `mwacal` are embedded as lists of
  records; the `SBID`/`calgroupid` PRIMARY KEY constraint makes a duplicate
  INSERT fail, which the Python code catches and logs, so the embedded insert
  is a no-op when the key is present.
* Remote HTTP interactions are embedded by passing the outcome of the remote
  call (transport failure, HTTP error status, or a parsed reply) as an
  explicit argument; an uncaught Python exception is `Except.error`.
* Clock readings (`Time(datetime.now()).gps` / `.mjd`) are explicit arguments
  at each point the code reads the clock.
-/

/-- Values carried in trigger parameter dictionaries (Python scalars). -/
inductive Val where
  | vint : Int → Val
  | vreal : ℚ → Val
  | vstr : String → Val
  | vbool : Bool → Val
deriving DecidableEq

/-- A Python dict as an association list; later bindings shadow earlier ones. -/
abbrev PyDict := List (String × Val)

/-- Dictionary lookup: the last binding for a key wins (Python dict semantics
under repeated `update`). -/
def dget (d : PyDict) (k : String) : Option Val :=
  (d.reverse.find? (fun p => p.1 == k)).map Prod.snd

/-- Python `k in d`. -/
def hasKey (d : PyDict) (k : String) : Bool :=
  d.any (fun p => p.1 == k)

/-- Python `d.update(other)`: every binding of `other` is written into `d`.
With last-binding-wins lookup this is list append. -/
def dictUpdate (d other : PyDict) : PyDict := d ++ other

/-- One row of the `mwatrigger` table (`SBID INTEGER PRIMARY KEY, TIME REAL,
groupid INTEGER, calobs INTEGER`). -/
structure TriggerRecord where
  sbid : Int
  time : ℚ
  groupid : Option Int
  calobs : Bool
deriving DecidableEq

/-- One row of the `mwacal` table (`calgroupid INTEGER PRIMARY KEY, time REAL`). -/
structure CalEvent where
  calgroupid : Int
  time : ℚ
deriving DecidableEq

/-- `MWATriggerDB.query_record`: `SELECT * FROM mwatrigger WHERE SBID = ?`,
returning the first matching row or `None`. -/
def query_record (db : List TriggerRecord) (sbid : Int) : Option TriggerRecord :=
  db.find? (fun r => r.sbid == sbid)

/-- `MWATriggerDB.insert_record`: `INSERT INTO mwatrigger ... VALUES (?,?,?,?)`.
The PRIMARY KEY constraint makes the insert fail when the SBID is already
present; the code catches the error and logs, leaving the table unchanged. -/
def insert_record (db : List TriggerRecord) (r : TriggerRecord) : List TriggerRecord :=
  if db.any (fun q => q.sbid == r.sbid) then db else db ++ [r]

/-- `MWATriggerDB.update_record` called with keyword arguments:
`UPDATE mwatrigger SET <present fields> WHERE SBID = ?`. Each of the three
optional arguments is `some v` when the corresponding keyword was passed.
When no keyword is passed, `_convert_update_kwargs` returns `None` and the
method does nothing. The UPDATE overwrites the stored fields unconditionally
on every row whose SBID matches. -/
def update_record (db : List TriggerRecord) (sbid : Int)
    (time : Option ℚ) (groupid : Option (Option Int)) (calobs : Option Bool) :
    List TriggerRecord :=
  if time.isNone && groupid.isNone && calobs.isNone then db
  else db.map (fun r =>
    if r.sbid == sbid then
      { r with time := time.getD r.time,
               groupid := groupid.getD r.groupid,
               calobs := calobs.getD r.calobs }
    else r)

/-- `MWATriggerDB.insert_cal_record`: `INSERT INTO mwacal (calgroupid, time)`.
As for `insert_record`, a duplicate primary key leaves the table unchanged. -/
def insert_cal_record (db : List CalEvent) (e : CalEvent) : List CalEvent :=
  if db.any (fun q => q.calgroupid == e.calgroupid) then db else db ++ [e]

/-- `MWATriggerDB.query_cal_record`:
`SELECT * FROM mwacal WHERE TIME > {time - window}` and return True iff a row
is found. The default `window` argument in the source is `1/24`. -/
def query_cal_record (db : List CalEvent) (time : ℚ) (window : ℚ) : Bool :=
  db.any (fun e => time - window < e.time)

/-- The default dedup window, `1/24` day, appearing both as the default
`window` of `query_cal_record` and as the default `calsearchwindow` of
`trigger_mwa_cal`. -/
def calsearchwindow_default : ℚ := 1/24

/-- A parsed JSON reply of the remote trigger endpoint, as the code unpacks
it: a `success` flag and an `obsid_list`. -/
structure TrigResponse where
  success : Bool
  obsid_list : List Int
deriving DecidableEq

/-- Outcome of the remote POST in `MWATrigger.trigger`: the request raised a
transport error, `raise_for_status` raised on a non-success HTTP status, or a
parsed reply came back. -/
inductive RemoteOutcome where
  | transportError
  | httpError
  | reply (r : TrigResponse)
deriving DecidableEq

/-- `MWATrigger.trigger`. The first component is the returned value (`None`
or the parsed response); the second records whether `requests.post` was
executed at all. In dry-run mode the method logs and returns `None` before
any remote call. In live mode a `requests.exceptions.RequestException`
(covering both transport errors and the error `raise_for_status` raises on a
non-success HTTP status) is caught and `None` is returned; a reply whose
`success` field is false also yields `None`; only a reply with `success`
true is returned. -/
def MWATrigger.trigger (dryrun : Bool) (out : RemoteOutcome) :
    Option TrigResponse × Bool :=
  if dryrun then (none, false)
  else
    match out with
    | .transportError => (none, true)
    | .httpError => (none, true)
    | .reply r => (if r.success then (some r, true) else (none, true))

/-- Outcome of the GET in `MWATrigger.check_array_ready`: transport/HTTP
error (raised inside the try block and caught), a 2xx reply whose body fails
to parse as JSON (`response.json()` is outside the try block and raises), or
a parsed boolean `busy` value. -/
inductive ArrayOutcome where
  | transportError
  | malformedBody
  | body (busy : Bool)
deriving DecidableEq

/-- Outcome of the GET in `MWATrigger.check_corr_ready`: as for the array
check, with a well formed body unpacking to `(healthy, oversampling)`. -/
inductive CorrOutcome where
  | transportError
  | malformedBody
  | body (healthy oversampling : Bool)
deriving DecidableEq

/-- `MWATrigger.check_array_ready`: returns `None` when the request fails
(caught), raises when the body cannot be parsed (uncaught, since
`response.json()` sits after the try block), and otherwise returns
`not busy`. -/
def check_array_ready : ArrayOutcome → Except Unit (Option Bool)
  | .transportError => .ok none
  | .malformedBody => .error ()
  | .body busy => .ok (some (!busy))

/-- `MWATrigger.check_corr_ready`: same shape as `check_array_ready`,
returning `not oversampling` on a well formed body. -/
def check_corr_ready : CorrOutcome → Except Unit (Option Bool)
  | .transportError => .ok none
  | .malformedBody => .error ()
  | .body _ oversampling => .ok (some (!oversampling))

/-- Python truthiness of a value that is either `None` or a bool. -/
def truthy : Option Bool → Bool
  | none => false
  | some b => b

/-- Python `a and b` over None-or-bool values: returns `b` when `a` is
truthy, else returns `a`. -/
def pyAnd (a b : Option Bool) : Option Bool :=
  if truthy a then b else a

/-- `ASKAPMWATrigger.mwa_status`: runs both health checks in order and
returns `array_ready and corr_ready`. An exception from either check
propagates to the caller. -/
def mwa_status (ao : ArrayOutcome) (co : CorrOutcome) : Except Unit (Option Bool) := do
  let a ← check_array_ready ao
  let c ← check_corr_ready co
  return pyAnd a c

/-- Python truthiness of a None-or-int value (`if self.groupid:`). -/
def pyTruthyInt : Option Int → Bool
  | none => false
  | some n => n != 0

/-- `ASKAPMWATrigger._get_trigger_obsids`. In dry-run mode it returns a
one-element list holding the current GPS time; with no response it returns
`[None]`; with a response whose `obsid_list` is empty it returns the current
GPS time; otherwise the `obsid_list` itself. -/
def get_trigger_obsids (dryrun : Bool) (gpsNow : Int)
    (response : Option TrigResponse) : List (Option Int) :=
  if dryrun then [some gpsNow]
  else
    match response with
    | none => [none]
    | some r => if r.obsid_list.isEmpty then [some gpsNow] else r.obsid_list.map some

/-- The engine state an `ASKAPMWATrigger` instance threads through its
trigger methods: the observation id, the in-memory `self.groupid`, and the
`mwatrigger` table. -/
structure EngineState where
  sbid : Int
  groupid : Option Int
  db : List TriggerRecord
deriving DecidableEq

/-- `ASKAPMWATrigger._init_db_record`: look up the record for this sbid; if
present, load its groupid and do not insert; otherwise insert a fresh record
with `groupid=None, calobs=False` and set the in-memory groupid to `None`.
Returns the table after the call and the in-memory groupid it sets. -/
def init_db_record (db : List TriggerRecord) (sbid : Int) (startTime : ℚ) :
    List TriggerRecord × Option Int :=
  match query_record db sbid with
  | some q => (db, q.groupid)
  | none => (insert_record db ⟨sbid, startTime, none, false⟩, none)

/-- Result of one `ASKAPMWATrigger.trigger_mwa` call: the value returned,
whether `self.mwatrigger.trigger` was invoked (science trigger attempted),
the merged parameter set the client would send, and the updated state. -/
structure SciResult where
  response : Option TrigResponse
  attempted : Bool
  data : Option PyDict
  state : EngineState
deriving DecidableEq

/-- `ASKAPMWATrigger.trigger_mwa`. If no `ra` key is in the client parameter
set, log and return `None` without triggering. Otherwise update the keyword
arguments with the alias (when non-empty) and the groupid (when truthy),
invoke the client (whose merged request data is `params` updated with the
keyword arguments), and, when the response is not `None` or this is a dry
run and the in-memory groupid is `None`, assign the groupid from
`_get_trigger_obsids` and persist it with `update_record`. -/
def trigger_mwa (dryrun : Bool) (params kwargs : PyDict) (aliasName : String)
    (out : RemoteOutcome) (gpsNow : Int) (s : EngineState) : SciResult :=
  if !hasKey params "ra" then ⟨none, false, none, s⟩
  else
    let kwargs := if aliasName != "" then dictUpdate kwargs [("obsname", .vstr aliasName)] else kwargs
    let kwargs := if pyTruthyInt s.groupid then
        dictUpdate kwargs [("groupid", .vint (s.groupid.getD 0))]
      else kwargs
    let data := dictUpdate params kwargs
    let response := (MWATrigger.trigger dryrun out).1
    if (response.isSome || dryrun) && s.groupid.isNone then
      let g := (get_trigger_obsids dryrun gpsNow response).headD none
      ⟨response, true, some data,
        { s with groupid := g, db := update_record s.db s.sbid none (some g) none }⟩
    else ⟨response, true, some data, s⟩

/-- Result of one `ASKAPMWATrigger.trigger_mwa_cal` call. -/
structure CalResult where
  response : Option TrigResponse
  attempted : Bool
  data : Option PyDict
  state : EngineState
  caldb : List CalEvent
deriving DecidableEq

/-- `ASKAPMWATrigger.trigger_mwa_cal`. First consult `query_cal_record` at
the current MJD; if a recent calibration exists, set `calobs` for this sbid
and return `None` without building a request. Otherwise: when no `ra` key is
in the client parameters, force `alt=89, az=0`; add the groupid when truthy;
force `calexptime`, `calibrator=True`, `exptime=8`, `nobs=1` over the caller
keyword arguments; add the `_cal` alias when non-empty; invoke the client
(merged request data is `params` updated with the keyword arguments). When
the response is not `None` or this is a dry run: set `calobs`, assign and
persist the groupid if still `None`, and append a calibration event stamped
with the current GPS time and MJD. -/
def trigger_mwa_cal (dryrun : Bool) (params kwargs : PyDict)
    (calexptime : Int) (calsearchwindow : ℚ) (aliasName : String)
    (out : RemoteOutcome) (gpsObsid gpsCal : Int) (mjdQuery mjdRec : ℚ)
    (s : EngineState) (caldb : List CalEvent) : CalResult :=
  if query_cal_record caldb mjdQuery calsearchwindow then
    ⟨none, false, none,
      { s with db := update_record s.db s.sbid none none (some true) }, caldb⟩
  else
    let kwargs := if !hasKey params "ra" then
        dictUpdate kwargs [("alt", .vint 89), ("az", .vint 0)]
      else kwargs
    let kwargs := if pyTruthyInt s.groupid then
        dictUpdate kwargs [("groupid", .vint (s.groupid.getD 0))]
      else kwargs
    let kwargs := dictUpdate kwargs
      [("calexptime", .vint calexptime), ("calibrator", .vbool true),
       ("exptime", .vint 8), ("nobs", .vint 1)]
    let kwargs := if aliasName != "" then
        dictUpdate kwargs [("obsname", .vstr (aliasName ++ "_cal"))]
      else kwargs
    let data := dictUpdate params kwargs
    let response := (MWATrigger.trigger dryrun out).1
    if response.isSome || dryrun then
      let s1 : EngineState :=
        { s with db := update_record s.db s.sbid none none (some true) }
      let s2 : EngineState :=
        if s1.groupid.isNone then
          let g := (get_trigger_obsids dryrun gpsObsid response).headD none
          { s1 with groupid := g, db := update_record s1.db s1.sbid none (some g) none }
        else s1
      ⟨response, true, some data, s2, insert_cal_record caldb ⟨gpsCal, mjdRec⟩⟩
    else ⟨response, true, some data, s, caldb⟩

/-- Outcome of target resolution in `ASKAPMWATrigger.get_schedblock_source`
as seen by the engine loop: either a coordinate was resolved (in which case
`update_default_params(ra=..., dec=...)` writes it into the client parameter
set) or an exception was caught and `self.coord = (None, None)` with the
parameter set left unchanged. -/
inductive ResolveOutcome where
  | resolved (ra dec : ℚ)
  | unresolved
deriving DecidableEq

/-- Effect of `get_schedblock_source` on the client parameter set. -/
def apply_resolution (params : PyDict) : ResolveOutcome → PyDict
  | .resolved ra dec => dictUpdate params [("ra", .vreal ra), ("dec", .vreal dec)]
  | .unresolved => params

/-- Result of one iteration of the execution loop in
`ASKAPMWATrigger.run` (the trigger-relevant part of the `while status == 3`
body). -/
structure CycleResult where
  params : PyDict
  state : EngineState
  caldb : List CalEvent
  calAttempted : Bool
  calData : Option PyDict
  sciAttempted : Bool
  sciData : Option PyDict
deriving DecidableEq

/-- One engine cycle of `ASKAPMWATrigger.run` while the observation is
executing: re-resolve the target (`get_schedblock_source`), attempt a
calibration trigger (`trigger_mwa_cal`), then attempt a science trigger
(`trigger_mwa`). Remote outcomes and clock readings are explicit inputs. -/
def engine_cycle (dryrun : Bool) (aliasName : String) (kwargs : PyDict)
    (resolve : ResolveOutcome) (calOut sciOut : RemoteOutcome)
    (gpsObsid gpsCal gpsSci : Int) (mjdQuery mjdRec : ℚ)
    (calexptime : Int) (calsearchwindow : ℚ)
    (params : PyDict) (s : EngineState) (caldb : List CalEvent) : CycleResult :=
  let params := apply_resolution params resolve
  let cal := trigger_mwa_cal dryrun params kwargs calexptime calsearchwindow
    aliasName calOut gpsObsid gpsCal mjdQuery mjdRec s caldb
  let sci := trigger_mwa dryrun params kwargs aliasName sciOut gpsSci cal.state
  ⟨params, sci.state, cal.caldb, cal.attempted, cal.data, sci.attempted, sci.data⟩

/-- `ASKAPSchedBlock.get_scan_source` loop body: scans are probed from 0
upward (the source caps the probe at scan 99) and the loop breaks at the
first scan with no target binding for the reference antenna. `scanSrc`
models `obsvar` lookup: the source bound to a scan, when present. -/
def scan_loop (scanSrc : Nat → Option String) : Nat → Nat → List (Nat × String)
  | 0, _ => []
  | fuel + 1, scan =>
    match scanSrc scan with
    | some src => (scan, src) :: scan_loop scanSrc fuel (scan + 1)
    | none => []

/-- `ASKAPSchedBlock.get_scan_source`: the `scan_src_match` mapping built by
probing scans 0..99. -/
def get_scan_source (scanSrc : Nat → Option String) : List (Nat × String) :=
  scan_loop scanSrc 100 0

/-- The `sources` list built alongside `scan_src_match`: each source name in
order of first appearance, without duplicates. -/
def sources_of (m : List (Nat × String)) : List String :=
  m.foldl (fun acc p => if p.2 ∈ acc then acc else acc ++ [p.2]) []

/-- `ASKAPMWATrigger.get_schedblock_source`, selection part. `coordOf` models
`source_coord` (the per-source field-direction coordinates). With exactly one
distinct source its coordinate is taken with no warning; otherwise a warning
is logged and the source of the highest-numbered scan is used. The `none`
cases model the exception path (`max()` or a dict lookup raising, caught by
the surrounding try, leaving `self.coord = (None, None)`). The boolean
records whether the multiple-source warning was logged. -/
def get_schedblock_source (scanSrc : Nat → Option String)
    (coordOf : String → ℚ × ℚ) : Option (ℚ × ℚ) × Bool :=
  let m := get_scan_source scanSrc
  let srcs := sources_of m
  if srcs.length = 1 then (some (coordOf (srcs.headD "")), false)
  else
    match (m.map Prod.fst).max? with
    | none => (none, true)
    | some maxscan =>
      match m.find? (fun p => p.1 == maxscan) with
      | some p => (some (coordOf p.2), true)
      | none => (none, true)

/-- Scan-to-source metadata of the ambiguous-source scenario: scan 0 bound
to `srcA`, scan 1 bound to `srcB`, no further scans. -/
def scanSrcAB : Nat → Option String :=
  fun n => if n = 0 then some "srcA" else if n = 1 then some "srcB" else none

/-- Concrete per-source coordinates for the ambiguous-source scenario. -/
def coordEx : String → ℚ × ℚ :=
  fun s => if s = "srcB" then (30, -45) else (10, 20)

/-- Client parameter set with no coordinate, as loaded from per-project
defaults before any resolution. -/
def params0 : PyDict := [("project_id", Val.vstr "T001")]

/-- Engine state right after `_init_db_record` for a fresh observation 10. -/
def state0 : EngineState := ⟨10, none, [⟨10, 0, none, false⟩]⟩

/-- First execution-loop cycle of the stale-coordinate scenario: resolution
succeeds at (ra=180, dec=-45), both remote triggers succeed. -/
def cycle1 : CycleResult :=
  engine_cycle false "" [] (ResolveOutcome.resolved 180 (-45))
    (RemoteOutcome.reply ⟨true, [500]⟩) (RemoteOutcome.reply ⟨true, [501]⟩)
    1 2 3 0 0 120 (1/24) params0 state0 []

/-- Second cycle of the stale-coordinate scenario: resolution now returns
the unresolved sentinel, yet the `ra` written during the first cycle is
still in the client parameter set. -/
def cycle2 : CycleResult :=
  engine_cycle false "" [] ResolveOutcome.unresolved
    (RemoteOutcome.reply ⟨true, [502]⟩) (RemoteOutcome.reply ⟨true, [503]⟩)
    4 5 6 10 10 120 (1/24) cycle1.params cycle1.state cycle1.caldb

/-- Lookup distributes over dictionary update: the right-hand bindings win. -/
theorem dget_append (d1 d2 : PyDict) (k : String) :
    dget (d1 ++ d2) k = (dget d2 k).or (dget d1 k) := by
  unfold dget
  rw [List.reverse_append, List.find?_append]
  cases List.find? (fun p => p.1 == k) d2.reverse <;> simp

/-- A list with no match for the predicate reports `any` false. -/
theorem any_eq_false_of_find?_eq_none {α : Type} {p : α → Bool} {l : List α}
    (h : l.find? p = none) : l.any p = false := by
  rw [List.any_eq_false]
  intro x hx
  exact List.find?_eq_none.mp h x hx

/-- Searching after mapping the `calobs := true` row transform commutes with
searching first. -/
theorem find?_map_calobs (db : List TriggerRecord) (sbid : Int) :
    List.find? (fun r => r.sbid == sbid)
        (db.map (fun r => if r.sbid == sbid then { r with calobs := true } else r)) =
      (List.find? (fun r => r.sbid == sbid) db).map (fun r => { r with calobs := true }) := by
  induction db with
  | nil => rfl
  | cons r db ih =>
    obtain ⟨rs, rt, rg, rc⟩ := r
    by_cases h : rs = sbid
    · subst h
      simp [List.find?_cons]
    · simp only [List.map_cons, List.find?_cons]
      have hb : (rs == sbid) = false := by simpa using h
      simp only [hb, if_false, Bool.false_eq_true]
      exact ih

/-- Effect of the `calobs=True` update on the row the engine reads back. -/
theorem query_record_update_calobs (db : List TriggerRecord) (sbid : Int) :
    query_record (update_record db sbid none none (some true)) sbid =
      (query_record db sbid).map (fun r => { r with calobs := true }) := by
  have hu : update_record db sbid none none (some true) =
      db.map (fun r => if r.sbid == sbid then { r with calobs := true } else r) := by
    unfold update_record
    simp
  rw [query_record, hu, find?_map_calobs, query_record]

/-- Searching after mapping the `groupid := g` row transform commutes with
searching first. -/
theorem find?_map_groupid (db : List TriggerRecord) (sbid : Int) (g : Option Int) :
    List.find? (fun r => r.sbid == sbid)
        (db.map (fun r => if r.sbid == sbid then { r with groupid := g } else r)) =
      (List.find? (fun r => r.sbid == sbid) db).map (fun r => { r with groupid := g }) := by
  induction db with
  | nil => rfl
  | cons r db ih =>
    obtain ⟨rs, rt, rg, rc⟩ := r
    by_cases h : rs = sbid
    · subst h
      simp [List.find?_cons]
    · simp only [List.map_cons, List.find?_cons]
      have hb : (rs == sbid) = false := by simpa using h
      simp only [hb, if_false, Bool.false_eq_true]
      exact ih

/-- Effect of the groupid update on the row the engine reads back. -/
theorem query_record_update_groupid (db : List TriggerRecord) (sbid : Int)
    (g : Option Int) :
    query_record (update_record db sbid none (some g) none) sbid =
      (query_record db sbid).map (fun r => { r with groupid := g }) := by
  have hu : update_record db sbid none (some g) none =
      db.map (fun r => if r.sbid == sbid then { r with groupid := g } else r) := by
    unfold update_record
    simp
  rw [query_record, hu, find?_map_groupid, query_record]

/-- C1, counterexample. The claim states that the store operation
(`update_record` with a groupid argument) is a no-op when a group id is
already set. It is not: with the record for observation 10 holding group id
1, `update_record` with group id 2 overwrites the stored value with 2. -/
theorem C1_groupid_overwrite_cex :
    update_record [⟨10, 0, some 1, false⟩] 10 none (some (some 2)) none =
      [⟨10, 0, some 2, false⟩] := by rfl

/-- C1, amended. Write-once is enforced by the engine, not the store: once
the in-memory group id of `ASKAPMWATrigger` is set (`self.groupid is None`
fails), `trigger_mwa` performs no `update_record` at all, so both the state
and the stored group id are left unchanged by any later science trigger. -/
theorem C1_engine_write_once (dryrun : Bool) (params kwargs : PyDict)
    (aliasName : String) (out : RemoteOutcome) (gps : Int) (s : EngineState)
    (g : Int) (h : s.groupid = some g) :
    (trigger_mwa dryrun params kwargs aliasName out gps s).state = s := by
  unfold trigger_mwa
  by_cases hra : hasKey params "ra"
  · simp [hra, h]
  · simp [hra]

/-- C1 witness: a concrete science trigger for an observation whose group
id is already 1 leaves state and table untouched. -/
theorem C1_engine_write_once_witness :
    (⟨10, some 1, [⟨10, 0, some 1, false⟩]⟩ : EngineState).groupid = some 1 ∧
    (trigger_mwa false [("ra", Val.vreal 180)] [] "fld"
        (RemoteOutcome.reply ⟨true, [600]⟩) 42
        ⟨10, some 1, [⟨10, 0, some 1, false⟩]⟩).state =
      ⟨10, some 1, [⟨10, 0, some 1, false⟩]⟩ :=
  ⟨rfl, C1_engine_write_once false [("ra", Val.vreal 180)] [] "fld"
    (RemoteOutcome.reply ⟨true, [600]⟩) 42 ⟨10, some 1, [⟨10, 0, some 1, false⟩]⟩ 1 rfl⟩

/-- C2, counterexample. The claim states that in dry-run mode the trigger
client returns a synthetic success result carrying a freshly minted
identifier. In the code `MWATrigger.trigger` returns `None` in dry-run mode
(the same value it returns for a failed live trigger), carrying no
identifier; here even a remote environment that would answer success yields
`None`. -/
theorem C2_dryrun_returns_none_cex :
    MWATrigger.trigger true (RemoteOutcome.reply ⟨true, [42]⟩) = (none, false) := by rfl

/-- C2, amended. In dry-run mode the client performs no remote call and
returns `None`; the freshly minted GPS-derived identifier is produced by the
engine helper `_get_trigger_obsids`, and the engine bookkeeping (guarded by
`response is not None or self.dryrun`) therefore still assigns and persists
a group id equal to the current GPS time. -/
theorem C2_dryrun_semantics (out : RemoteOutcome) (gps : Int) :
    MWATrigger.trigger true out = (none, false) ∧
    get_trigger_obsids true gps (MWATrigger.trigger true out).1 = [some gps] ∧
    (∀ params kwargs aliasName s r, hasKey params "ra" = true →
      EngineState.groupid s = none →
      query_record s.db s.sbid = some r →
      (trigger_mwa true params kwargs aliasName out gps s).state.groupid = some gps ∧
      query_record (trigger_mwa true params kwargs aliasName out gps s).state.db s.sbid =
        some { r with groupid := some gps }) := by
  refine ⟨rfl, rfl, ?_⟩
  intro params kwargs aliasName s r hra hg hr
  have hstate : (trigger_mwa true params kwargs aliasName out gps s).state =
      { s with groupid := some gps,
               db := update_record s.db s.sbid none (some (some gps)) none } := by
    unfold trigger_mwa
    simp [hra, hg, MWATrigger.trigger, get_trigger_obsids, pyTruthyInt]
  rw [hstate]
  refine ⟨rfl, ?_⟩
  show query_record (update_record s.db s.sbid none (some (some gps)) none) s.sbid = _
  rw [query_record_update_groupid, hr]
  rfl

/-- C2 witness: a concrete dry-run science trigger for a fresh observation
assigns group id 42 from the current GPS time and persists it in the
observation table. -/
theorem C2_dryrun_semantics_witness :
    hasKey [("ra", Val.vreal 180)] "ra" = true ∧
    EngineState.groupid ⟨10, none, [⟨10, 0, none, false⟩]⟩ = none ∧
    query_record [⟨10, 0, none, false⟩] 10 = some ⟨10, 0, none, false⟩ ∧
    ((trigger_mwa true [("ra", Val.vreal 180)] [] ""
        (RemoteOutcome.reply ⟨true, [7]⟩) 42
        ⟨10, none, [⟨10, 0, none, false⟩]⟩).state.groupid = some 42 ∧
     query_record (trigger_mwa true [("ra", Val.vreal 180)] [] ""
        (RemoteOutcome.reply ⟨true, [7]⟩) 42
        ⟨10, none, [⟨10, 0, none, false⟩]⟩).state.db 10 =
      some ⟨10, 0, some 42, false⟩) :=
  ⟨rfl, rfl, rfl,
    (C2_dryrun_semantics (RemoteOutcome.reply ⟨true, [7]⟩) 42).2.2
      [("ra", Val.vreal 180)] [] "" ⟨10, none, [⟨10, 0, none, false⟩]⟩
      ⟨10, 0, none, false⟩ rfl rfl rfl⟩

/-- C3, counterexample. The claim states combined readiness never raises on
a malformed response. In the code `response.json()` sits outside the
try/except of both health checks, so a 2xx reply whose body cannot be
parsed raises out of `mwa_status` to the caller. -/
theorem C3_malformed_raises_cex :
    mwa_status ArrayOutcome.malformedBody (CorrOutcome.body true false) =
      Except.error () := by rfl

/-- C3, amended. For failures the try/except does cover, the oracle is
fail-closed: whenever at least one health check fails at the transport/HTTP
layer and neither returns a malformed body, `mwa_status` returns normally
with a falsy value (None or False, never True). -/
theorem C3_fail_closed_transport (ao : ArrayOutcome) (co : CorrOutcome)
    (h1 : ao ≠ ArrayOutcome.malformedBody) (h2 : co ≠ CorrOutcome.malformedBody)
    (h3 : ao = ArrayOutcome.transportError ∨ co = CorrOutcome.transportError) :
    ∃ v, mwa_status ao co = Except.ok v ∧ truthy v = false := by
  cases ao with
  | malformedBody => exact absurd rfl h1
  | transportError =>
    cases co with
    | malformedBody => exact absurd rfl h2
    | transportError => exact ⟨none, rfl, rfl⟩
    | body hl ov => exact ⟨none, rfl, rfl⟩
  | body busy =>
    cases co with
    | malformedBody => exact absurd rfl h2
    | transportError =>
      cases busy with
      | true => exact ⟨some false, rfl, rfl⟩
      | false => exact ⟨none, rfl, rfl⟩
    | body hl ov =>
      rcases h3 with h | h <;> simp_all

/-- C3 witness: array check failing at transport level with a healthy
correlator reply yields a normal, falsy combined status. -/
theorem C3_fail_closed_transport_witness :
    ArrayOutcome.transportError ≠ ArrayOutcome.malformedBody ∧
    CorrOutcome.body true false ≠ CorrOutcome.malformedBody ∧
    ∃ v, mwa_status ArrayOutcome.transportError (CorrOutcome.body true false) =
      Except.ok v ∧ truthy v = false :=
  ⟨by decide, by decide,
    C3_fail_closed_transport ArrayOutcome.transportError (CorrOutcome.body true false)
      (by decide) (by decide) (Or.inl rfl)⟩

/-- C8: in live mode `MWATrigger.trigger` returns a structured result
exactly when the reply indicates success; transport failures, HTTP error
statuses, and replies whose success flag is false all return `None`. A
remote error is never promoted to a successful trigger. -/
theorem C8_no_silent_success :
    (∀ out, ((MWATrigger.trigger false out).1.isSome = true ↔
      ∃ r, out = RemoteOutcome.reply r ∧ r.success = true)) ∧
    (MWATrigger.trigger false RemoteOutcome.transportError).1 = none ∧
    (MWATrigger.trigger false RemoteOutcome.httpError).1 = none ∧
    (∀ r, (MWATrigger.trigger false (RemoteOutcome.reply r)).1 =
      if r.success then some r else none) := by
  refine ⟨?_, rfl, rfl, ?_⟩
  · intro out
    cases out with
    | transportError => simp [MWATrigger.trigger]
    | httpError => simp [MWATrigger.trigger]
    | reply r =>
      by_cases h : r.success <;> simp [MWATrigger.trigger, h]
  · intro r
    by_cases h : r.success <;> simp [MWATrigger.trigger, h]

/-- C4: at every calibration attempt, if a calibration record exists within
the window (`query_cal_record` true) then `trigger_mwa_cal` marks the
observation record `calobs=True`, invokes no trigger, and returns `None`;
the default dedup window is 1/24 day (one hour). -/
theorem C4_cal_dedup_rule (dryrun : Bool) (params kwargs : PyDict)
    (calexptime : Int) (w : ℚ) (aliasName : String) (out : RemoteOutcome)
    (gpsObsid gpsCal : Int) (mjdQuery mjdRec : ℚ) (s : EngineState)
    (caldb : List CalEvent) (r : TriggerRecord)
    (hq : query_cal_record caldb mjdQuery w = true)
    (hr : query_record s.db s.sbid = some r) :
    (trigger_mwa_cal dryrun params kwargs calexptime w aliasName out
        gpsObsid gpsCal mjdQuery mjdRec s caldb).attempted = false ∧
    (trigger_mwa_cal dryrun params kwargs calexptime w aliasName out
        gpsObsid gpsCal mjdQuery mjdRec s caldb).response = none ∧
    query_record (trigger_mwa_cal dryrun params kwargs calexptime w aliasName out
        gpsObsid gpsCal mjdQuery mjdRec s caldb).state.db s.sbid =
      some { r with calobs := true } ∧
    calsearchwindow_default = 1/24 := by
  have hres : trigger_mwa_cal dryrun params kwargs calexptime w aliasName out
      gpsObsid gpsCal mjdQuery mjdRec s caldb =
      ⟨none, false, none,
        { s with db := update_record s.db s.sbid none none (some true) }, caldb⟩ := by
    unfold trigger_mwa_cal
    rw [hq]
    simp
  rw [hres]
  refine ⟨rfl, rfl, ?_, rfl⟩
  show query_record (update_record s.db s.sbid none none (some true)) s.sbid = _
  rw [query_record_update_calobs, hr]
  rfl

/-- C4 witness: with a calibration event half a window old, a concrete
calibration attempt is skipped and the record is marked done. -/
theorem C4_cal_dedup_rule_witness :
    query_cal_record [⟨900, 10⟩] (10 + 1/48) (1/24) = true ∧
    query_record [⟨10, 0, none, false⟩] 10 = some ⟨10, 0, none, false⟩ ∧
    ((trigger_mwa_cal true [] [] 120 (1/24) "" RemoteOutcome.transportError
        901 902 (10 + 1/48) (10 + 1/48) ⟨10, none, [⟨10, 0, none, false⟩]⟩
        [⟨900, 10⟩]).attempted = false ∧
     (trigger_mwa_cal true [] [] 120 (1/24) "" RemoteOutcome.transportError
        901 902 (10 + 1/48) (10 + 1/48) ⟨10, none, [⟨10, 0, none, false⟩]⟩
        [⟨900, 10⟩]).response = none ∧
     query_record (trigger_mwa_cal true [] [] 120 (1/24) "" RemoteOutcome.transportError
        901 902 (10 + 1/48) (10 + 1/48) ⟨10, none, [⟨10, 0, none, false⟩]⟩
        [⟨900, 10⟩]).state.db 10 = some ⟨10, 0, none, true⟩ ∧
     calsearchwindow_default = 1/24) :=
  ⟨by norm_num [query_cal_record], rfl,
    C4_cal_dedup_rule true [] [] 120 (1/24) "" RemoteOutcome.transportError
      901 902 (10 + 1/48) (10 + 1/48) ⟨10, none, [⟨10, 0, none, false⟩]⟩
      [⟨900, 10⟩] ⟨10, 0, none, false⟩ (by norm_num [query_cal_record]) rfl⟩

/-- C5: `query_cal_record` answers true exactly when some calibration event
is strictly newer than the query time minus the window; for an event at
time T and positive window w, the query at T + w/2 is true and the query at
T + 3w/2 is false. -/
theorem C5_cal_window_query (w : ℚ) (hw : 0 < w) :
    (∀ caldb t, query_cal_record caldb t w = true ↔
      ∃ e ∈ caldb, t - w < e.time) ∧
    (∀ cid T, query_cal_record [⟨cid, T⟩] (T + w/2) w = true ∧
      query_cal_record [⟨cid, T⟩] (T + 3*w/2) w = false) := by
  constructor
  · intro caldb t
    simp [query_cal_record, List.any_eq_true]
  · intro cid T
    constructor
    · simp only [query_cal_record, List.any_cons, List.any_nil, Bool.or_false,
        decide_eq_true_eq]
      linarith
    · simp only [query_cal_record, List.any_cons, List.any_nil, Bool.or_false,
        decide_eq_false_iff_not, not_lt]
      linarith

/-- C5 witness: window 1, event at time 0; query at 1/2 finds it, query at
3/2 does not. -/
theorem C5_cal_window_query_witness :
    (0 : ℚ) < 1 ∧
    ((∀ caldb t, query_cal_record caldb t 1 = true ↔
        ∃ e ∈ caldb, t - 1 < e.time) ∧
     (∀ cid T, query_cal_record [⟨cid, T⟩] (T + 1/2) 1 = true ∧
        query_cal_record [⟨cid, T⟩] (T + 3*1/2) 1 = false)) :=
  ⟨by norm_num, C5_cal_window_query 1 (by norm_num)⟩

/-- C7: `_init_db_record` is an idempotent lookup-or-insert. A second call
for the same observation id leaves the table exactly as the first call left
it; when no record existed, the first call creates one with `groupid=None`
and `calobs=False`, and the second call returns that record unchanged,
loading its stored (null) group id. -/
theorem C7_idempotent_create (db : List TriggerRecord) (sbid : Int) (t t2 : ℚ) :
    (init_db_record (init_db_record db sbid t).1 sbid t2).1 =
      (init_db_record db sbid t).1 ∧
    (query_record db sbid = none →
      query_record (init_db_record db sbid t).1 sbid = some ⟨sbid, t, none, false⟩ ∧
      init_db_record (init_db_record db sbid t).1 sbid t2 =
        ((init_db_record db sbid t).1, none)) := by
  cases h : query_record db sbid with
  | some q =>
    have hdb : (init_db_record db sbid t).1 = db := by
      unfold init_db_record
      rw [h]
    have hdb2 : (init_db_record db sbid t2).1 = db := by
      unfold init_db_record
      rw [h]
    refine ⟨?_, fun hc => absurd hc (by simp)⟩
    rw [hdb, hdb2]
  | none =>
    have hany : db.any (fun q => q.sbid == sbid) = false :=
      any_eq_false_of_find?_eq_none h
    have hdb1 : (init_db_record db sbid t).1 = db ++ [⟨sbid, t, none, false⟩] := by
      unfold init_db_record
      rw [h]
      simp only [insert_record, hany, Bool.false_eq_true, if_false]
    have hq1 : query_record (db ++ [⟨sbid, t, none, false⟩]) sbid =
        some ⟨sbid, t, none, false⟩ := by
      unfold query_record at *
      rw [List.find?_append, h, Option.none_or]
      simp [List.find?_cons]
    constructor
    · rw [hdb1]
      unfold init_db_record
      rw [hq1]
    · intro _
      refine ⟨by rw [hdb1]; exact hq1, ?_⟩
      rw [hdb1]
      unfold init_db_record
      rw [hq1]

/-- C7 witness: a fresh table, observation 10 first seen at time 5. -/
theorem C7_idempotent_create_witness :
    (init_db_record (init_db_record [] 10 5).1 10 6).1 = (init_db_record [] 10 5).1 ∧
    query_record ([] : List TriggerRecord) 10 = none ∧
    query_record (init_db_record [] 10 5).1 10 = some ⟨10, 5, none, false⟩ ∧
    init_db_record (init_db_record [] 10 5).1 10 6 = ((init_db_record [] 10 5).1, none) :=
  ⟨(C7_idempotent_create [] 10 5 6).1, rfl,
    ((C7_idempotent_create [] 10 5 6).2 rfl).1,
    ((C7_idempotent_create [] 10 5 6).2 rfl).2⟩

/-- `trigger_mwa` proceeds to invoke the client exactly when the client
parameter set has an `ra` key, independently of the rest of the state. -/
theorem trigger_mwa_attempted (dryrun : Bool) (params kwargs : PyDict)
    (aliasName : String) (out : RemoteOutcome) (gps : Int) (s : EngineState) :
    (trigger_mwa dryrun params kwargs aliasName out gps s).attempted =
      hasKey params "ra" := by
  unfold trigger_mwa
  by_cases h : hasKey params "ra"
  · rw [h]
    simp only [Bool.not_true, Bool.false_eq_true, if_false]
    split <;> rfl
  · rw [Bool.not_eq_true] at h
    rw [h]
    rfl

/-- C6, counterexample. The claim states that in every engine cycle whose
target resolution returns the unresolved sentinel no science trigger is
invoked. In `cycle2` the resolution input is the unresolved sentinel, yet
the `ra` written into the client parameters during `cycle1` is still
present, so `trigger_mwa` proceeds past its guard and invokes the science
trigger anyway. -/
theorem C6_stale_coord_cex : cycle2.sciAttempted = true := by
  have h2 : cycle2.sciAttempted =
      hasKey (apply_resolution cycle1.params ResolveOutcome.unresolved) "ra" := by
    show (engine_cycle false "" [] ResolveOutcome.unresolved
        (RemoteOutcome.reply ⟨true, [502]⟩) (RemoteOutcome.reply ⟨true, [503]⟩)
        4 5 6 10 10 120 (1/24) cycle1.params cycle1.state cycle1.caldb).sciAttempted = _
    unfold engine_cycle
    exact trigger_mwa_attempted ..
  rw [h2]
  rfl

/-- When no recent calibration suppresses it, `trigger_mwa_cal` always
proceeds to invoke the client. -/
theorem trigger_mwa_cal_attempted (dryrun : Bool) (params kwargs : PyDict)
    (calexptime : Int) (w : ℚ) (aliasName : String) (out : RemoteOutcome)
    (gpsObsid gpsCal : Int) (mjdQuery mjdRec : ℚ) (s : EngineState)
    (caldb : List CalEvent) (hq : query_cal_record caldb mjdQuery w = false) :
    (trigger_mwa_cal dryrun params kwargs calexptime w aliasName out
        gpsObsid gpsCal mjdQuery mjdRec s caldb).attempted = true := by
  unfold trigger_mwa_cal
  rw [hq]
  simp only [Bool.false_eq_true, if_false]
  split <;> rfl

/-- The merged request data `trigger_mwa_cal` hands to the client, when the
dedup check does not suppress the call. -/
theorem trigger_mwa_cal_data_eq (dryrun : Bool) (params kwargs : PyDict)
    (calexptime : Int) (w : ℚ) (aliasName : String) (out : RemoteOutcome)
    (gpsObsid gpsCal : Int) (mjdQuery mjdRec : ℚ) (s : EngineState)
    (caldb : List CalEvent) (hq : query_cal_record caldb mjdQuery w = false) :
    (trigger_mwa_cal dryrun params kwargs calexptime w aliasName out
        gpsObsid gpsCal mjdQuery mjdRec s caldb).data =
      some (dictUpdate params (
        let k1 := if !hasKey params "ra" then
            dictUpdate kwargs [("alt", Val.vint 89), ("az", Val.vint 0)]
          else kwargs
        let k2 := if pyTruthyInt s.groupid then
            dictUpdate k1 [("groupid", Val.vint (s.groupid.getD 0))]
          else k1
        let k3 := dictUpdate k2
          [("calexptime", Val.vint calexptime), ("calibrator", Val.vbool true),
           ("exptime", Val.vint 8), ("nobs", Val.vint 1)]
        if aliasName != "" then
          dictUpdate k3 [("obsname", Val.vstr (aliasName ++ "_cal"))]
        else k3)) := by
  unfold trigger_mwa_cal
  rw [hq]
  simp only [Bool.false_eq_true, if_false]
  split <;> rfl

/-- Lookup distributes over `dictUpdate`. -/
theorem dget_update (d1 d2 : PyDict) (k : String) :
    dget (dictUpdate d1 d2) k = (dget d2 k).or (dget d1 k) :=
  dget_append d1 d2 k

/-- C6, amended. In an engine cycle whose resolution returns the unresolved
sentinel and whose client parameter set holds no previously resolved `ra`,
no science trigger is invoked, and (when not suppressed by the dedup
window) a calibration trigger is attempted whose request carries the zenith
fallback `alt=89, az=0`. The original claim fails when an earlier cycle
already wrote `ra` into the parameters (see the counterexample): the guard
tests the parameter set, not the resolution outcome of the current cycle. -/
theorem C6_no_coordinate_policy (dryrun : Bool) (aliasName : String)
    (kwargs : PyDict) (calOut sciOut : RemoteOutcome)
    (gpsObsid gpsCal gpsSci : Int) (mjdQuery mjdRec : ℚ)
    (calexptime : Int) (w : ℚ) (params : PyDict) (s : EngineState)
    (caldb : List CalEvent)
    (hra : hasKey params "ra" = false)
    (hded : query_cal_record caldb mjdQuery w = false) :
    (engine_cycle dryrun aliasName kwargs ResolveOutcome.unresolved calOut sciOut
        gpsObsid gpsCal gpsSci mjdQuery mjdRec calexptime w params s caldb).sciAttempted
      = false ∧
    (engine_cycle dryrun aliasName kwargs ResolveOutcome.unresolved calOut sciOut
        gpsObsid gpsCal gpsSci mjdQuery mjdRec calexptime w params s caldb).calAttempted
      = true ∧
    ∃ d, (engine_cycle dryrun aliasName kwargs ResolveOutcome.unresolved calOut sciOut
        gpsObsid gpsCal gpsSci mjdQuery mjdRec calexptime w params s caldb).calData
      = some d ∧
      dget d "alt" = some (Val.vint 89) ∧ dget d "az" = some (Val.vint 0) := by
  refine ⟨?_, ?_, ?_⟩
  · show (trigger_mwa dryrun (apply_resolution params ResolveOutcome.unresolved)
      kwargs aliasName sciOut gpsSci _).attempted = false
    rw [trigger_mwa_attempted]
    exact hra
  · show (trigger_mwa_cal dryrun (apply_resolution params ResolveOutcome.unresolved)
      kwargs calexptime w aliasName calOut gpsObsid gpsCal mjdQuery mjdRec s caldb).attempted
      = true
    exact trigger_mwa_cal_attempted dryrun params kwargs calexptime w aliasName
      calOut gpsObsid gpsCal mjdQuery mjdRec s caldb hded
  · have hdata := trigger_mwa_cal_data_eq dryrun params kwargs calexptime w aliasName
      calOut gpsObsid gpsCal mjdQuery mjdRec s caldb hded
    rw [hra] at hdata
    have hcal : (engine_cycle dryrun aliasName kwargs ResolveOutcome.unresolved calOut sciOut
        gpsObsid gpsCal gpsSci mjdQuery mjdRec calexptime w params s caldb).calData =
        (trigger_mwa_cal dryrun params kwargs calexptime w aliasName calOut
          gpsObsid gpsCal mjdQuery mjdRec s caldb).data := rfl
    rw [hcal, hdata]
    refine ⟨_, rfl, ?_, ?_⟩
    · by_cases hg : pyTruthyInt s.groupid <;> by_cases ha : aliasName != "" <;>
        simp [hg, ha, dictUpdate, dget_append, dget]
    · by_cases hg : pyTruthyInt s.groupid <;> by_cases ha : aliasName != "" <;>
        simp [hg, ha, dictUpdate, dget_append, dget]

/-- C6 witness: a dry-run cycle with unresolved coordinates, a fresh
calibration log and a parameter set with no `ra` skips the science trigger
and attempts a zenith-pointing calibration. -/
theorem C6_no_coordinate_policy_witness :
    hasKey params0 "ra" = false ∧
    query_cal_record [] 0 1 = false ∧
    ((engine_cycle true "" [] ResolveOutcome.unresolved RemoteOutcome.transportError
        RemoteOutcome.transportError 1 2 3 0 0 120 1 params0 state0 []).sciAttempted
      = false ∧
     (engine_cycle true "" [] ResolveOutcome.unresolved RemoteOutcome.transportError
        RemoteOutcome.transportError 1 2 3 0 0 120 1 params0 state0 []).calAttempted
      = true ∧
     ∃ d, (engine_cycle true "" [] ResolveOutcome.unresolved RemoteOutcome.transportError
        RemoteOutcome.transportError 1 2 3 0 0 120 1 params0 state0 []).calData
      = some d ∧
      dget d "alt" = some (Val.vint 89) ∧ dget d "az" = some (Val.vint 0)) :=
  ⟨rfl, rfl, C6_no_coordinate_policy true "" [] RemoteOutcome.transportError
    RemoteOutcome.transportError 1 2 3 0 0 120 1 params0 state0 [] rfl rfl⟩

/-- C9: whenever more than one distinct source is associated with the
observation, `get_schedblock_source` takes the warning branch and selects
the source bound to the highest-numbered scan; in particular metadata
binding scan 0 to srcA and scan 1 to srcB resolves to the coordinate of
srcB. -/
theorem C9_ambiguous_source :
    (∀ (scanSrc : Nat → Option String) (coordOf : String → ℚ × ℚ),
      2 ≤ (sources_of (get_scan_source scanSrc)).length →
      ∃ k src, ((get_scan_source scanSrc).map Prod.fst).max? = some k ∧
        (k, src) ∈ get_scan_source scanSrc ∧
        (∀ j ∈ (get_scan_source scanSrc).map Prod.fst, j ≤ k) ∧
        get_schedblock_source scanSrc coordOf = (some (coordOf src), true)) ∧
    (∀ coordOf : String → ℚ × ℚ,
      get_schedblock_source scanSrcAB coordOf = (some (coordOf "srcB"), true)) := by
  constructor
  · intro scanSrc coordOf h
    have hmne : get_scan_source scanSrc ≠ [] := by
      intro he
      rw [he] at h
      simp [sources_of] at h
    have hkeys : (get_scan_source scanSrc).map Prod.fst ≠ [] := by
      simpa using hmne
    obtain ⟨k, hk⟩ : ∃ k, ((get_scan_source scanSrc).map Prod.fst).max? = some k := by
      cases hmax : ((get_scan_source scanSrc).map Prod.fst).max? with
      | none => exact absurd (List.max?_eq_none_iff.mp hmax) hkeys
      | some k => exact ⟨k, rfl⟩
    have hmem_ub :
        k ∈ (get_scan_source scanSrc).map Prod.fst ∧
        ∀ b ∈ (get_scan_source scanSrc).map Prod.fst, b ≤ k :=
      (List.max?_eq_some_iff (fun a => le_refl a) max_choice
        (fun _ _ _ => max_le_iff)).mp hk
    obtain ⟨p1, hp1m, hp11⟩ := List.mem_map.mp hmem_ub.1
    have hfind : ∃ p0, (get_scan_source scanSrc).find? (fun p => p.1 == k) = some p0 := by
      have hs : ((get_scan_source scanSrc).find? (fun p => p.1 == k)).isSome = true :=
        List.find?_isSome.mpr ⟨p1, hp1m, by simp [hp11]⟩
      cases hf : (get_scan_source scanSrc).find? (fun p => p.1 == k) with
      | none => rw [hf] at hs; simp at hs
      | some p0 => exact ⟨p0, rfl⟩
    obtain ⟨p0, hf⟩ := hfind
    have hp01 : p0.1 = k := by simpa using List.find?_some hf
    have hp0m : p0 ∈ get_scan_source scanSrc := List.mem_of_find?_eq_some hf
    refine ⟨k, p0.2, hk, ?_, hmem_ub.2, ?_⟩
    · rw [← hp01]
      exact hp0m
    · simp only [get_schedblock_source]
      rw [if_neg (by omega : ¬ (sources_of (get_scan_source scanSrc)).length = 1)]
      rw [hk]
      show (match (get_scan_source scanSrc).find? (fun p => p.1 == k) with
        | some p => (some (coordOf p.2), true)
        | none => (none, true)) = (some (coordOf p0.2), true)
      rw [hf]
  · intro coordOf
    rfl

/-- C9 witness: the two-source scenario from the spec, with concrete
per-source coordinates. -/
theorem C9_ambiguous_source_witness :
    2 ≤ (sources_of (get_scan_source scanSrcAB)).length ∧
    ∃ k src, ((get_scan_source scanSrcAB).map Prod.fst).max? = some k ∧
      (k, src) ∈ get_scan_source scanSrcAB ∧
      (∀ j ∈ (get_scan_source scanSrcAB).map Prod.fst, j ≤ k) ∧
      get_schedblock_source scanSrcAB coordEx = (some (coordEx src), true) :=
  ⟨by decide, C9_ambiguous_source.1 scanSrcAB coordEx (by decide)⟩

/-- C10: whenever `trigger_mwa_cal` builds a calibration request, the final
merged parameter set carries `exptime=8`, `nobs=1` and `calibrator=true`,
whatever values the caller passed in its keyword arguments and whatever the
per-project defaults hold: the forced calibration values are merged after
the caller overrides. -/
theorem C10_forced_cal_params (dryrun : Bool) (params kwargs : PyDict)
    (calexptime : Int) (w : ℚ) (aliasName : String) (out : RemoteOutcome)
    (gpsObsid gpsCal : Int) (mjdQuery mjdRec : ℚ) (s : EngineState)
    (caldb : List CalEvent) (d : PyDict)
    (hd : (trigger_mwa_cal dryrun params kwargs calexptime w aliasName out
        gpsObsid gpsCal mjdQuery mjdRec s caldb).data = some d) :
    dget d "exptime" = some (Val.vint 8) ∧
    dget d "nobs" = some (Val.vint 1) ∧
    dget d "calibrator" = some (Val.vbool true) := by
  by_cases hq : query_cal_record caldb mjdQuery w = true
  · have hnone : (trigger_mwa_cal dryrun params kwargs calexptime w aliasName out
        gpsObsid gpsCal mjdQuery mjdRec s caldb).data = none := by
      unfold trigger_mwa_cal
      rw [hq]
      simp
    rw [hnone] at hd
    exact absurd hd (by simp)
  · rw [Bool.not_eq_true] at hq
    have hdata := trigger_mwa_cal_data_eq dryrun params kwargs calexptime w aliasName
      out gpsObsid gpsCal mjdQuery mjdRec s caldb hq
    rw [hdata] at hd
    injection hd with hd
    subst hd
    refine ⟨?_, ?_, ?_⟩ <;>
      by_cases hr : hasKey params "ra" <;>
      by_cases hg : pyTruthyInt s.groupid <;>
      by_cases ha : aliasName != "" <;>
      simp [hr, hg, ha, dictUpdate, dget_append, dget]

/-- C10 witness: with empty caller kwargs and empty defaults the concrete
calibration request still carries exptime=8, nobs=1, calibrator=true. -/
theorem C10_forced_cal_params_witness :
    (trigger_mwa_cal true [] [] 120 1 "" RemoteOutcome.transportError 1 2 0 0
        state0 []).data = some
      [("alt", Val.vint 89), ("az", Val.vint 0), ("calexptime", Val.vint 120),
       ("calibrator", Val.vbool true), ("exptime", Val.vint 8), ("nobs", Val.vint 1)] ∧
    (dget [("alt", Val.vint 89), ("az", Val.vint 0), ("calexptime", Val.vint 120),
       ("calibrator", Val.vbool true), ("exptime", Val.vint 8), ("nobs", Val.vint 1)]
       "exptime" = some (Val.vint 8) ∧
     dget [("alt", Val.vint 89), ("az", Val.vint 0), ("calexptime", Val.vint 120),
       ("calibrator", Val.vbool true), ("exptime", Val.vint 8), ("nobs", Val.vint 1)]
       "nobs" = some (Val.vint 1) ∧
     dget [("alt", Val.vint 89), ("az", Val.vint 0), ("calexptime", Val.vint 120),
       ("calibrator", Val.vbool true), ("exptime", Val.vint 8), ("nobs", Val.vint 1)]
       "calibrator" = some (Val.vbool true)) :=
  ⟨rfl, C10_forced_cal_params true [] [] 120 1 "" RemoteOutcome.transportError 1 2 0 0
    state0 []
    [("alt", Val.vint 89), ("az", Val.vint 0), ("calexptime", Val.vint 120),
     ("calibrator", Val.vbool true), ("exptime", Val.vint 8), ("nobs", Val.vint 1)]
    rfl⟩
